import Mathlib

/-!
Verification of the C2HQ ML comment-analysis service (`src/ml-service`).

The Python services are shallowly embedded: text is `String` (a list of
characters), Python floats are modelled as rationals `ℚ`, regular-expression
searches over the fixed pattern taxonomies are embedded as executable Bool
matchers over `List Char`, and the two external collaborators (the Perspective
toxicity HTTP service and the lexical sentiment estimators VADER / TextBlob)
are modelled by their input/output contracts: an oracle value per input text.
All definitions are computable so that concrete scenarios evaluate by `decide`.
-/

namespace C2HQ

/-! ### Characters and Python string primitives -/

/-- Word character of the regex `\w` class (ASCII model): letter, digit or underscore. -/
def isWordChar (c : Char) : Bool := c.isAlphanum || c = '_'

/-- Whitespace of the regex `\s` class (ASCII model). -/
def isSpaceChar (c : Char) : Bool :=
  c = ' ' || c = '\t' || c = '\n' || c = '\r' || c = '\x0b' || c = '\x0c'

/-- Python `text.lower()` (ASCII model), as a character list. -/
def lowerData (s : String) : List Char := s.data.map Char.toLower

/-- Python substring containment `kw in s`. -/
def pyContains (kw : List Char) : List Char → Bool
  | [] => kw.isEmpty
  | c :: s => kw.isPrefixOf (c :: s) || pyContains kw (s)

/-- Python `s.count(kw)` for non-empty `kw`: non-overlapping occurrences,
scanning left to right. `fuel` bounds the recursion; `pyCount` supplies
`s.length`, enough fuel since every step consumes at least one character. -/
def pyCountAux (kw : List Char) : Nat → List Char → Nat
  | 0, _ => 0
  | _ + 1, [] => 0
  | fuel + 1, c :: s =>
    if kw.isPrefixOf (c :: s) then 1 + pyCountAux kw fuel (s.drop (kw.length - 1))
    else pyCountAux kw fuel s

/-- Python `s.count(kw)`: non-overlapping occurrence count. -/
def pyCount (kw s : List Char) : Nat := pyCountAux kw s.length s

/-- Python `s.count(ch)` for a single character. -/
def countChar (c : Char) (s : List Char) : Nat := s.countP (fun d => d == c)

/-- Python `text.isupper()` (ASCII model): at least one cased character and
every cased character upper-case. -/
def pyIsUpper (s : List Char) : Bool :=
  s.any Char.isAlpha && s.all (fun c => !c.isAlpha || c.isUpper)

/-! ### A small regex evaluator for the fixed taxonomies

Every pattern in the repository's taxonomies has the shape `\b(alt|…|alt)\b`
(an alternation of near-literal phrases bracketed by word boundaries), with
the single exception of `\?$`. A phrase is a sequence of tokens: a literal
character, a character class such as `[*u]`, `\d`, or the greedy `\s+`,
`\d+`, `\w+` (in the taxonomies each greedy token is followed by a character
outside its class, so greedy matching is equivalent to backtracking search). -/

inductive Tok where
  | lit (c : Char)
  | cls (cs : List Char)
  | digit
  | ws1
  | dplus
  | wplus

/-- Consume one token from the front of `s`; returns a consumed character
(its `\w`-class is that of every character the token consumed) and the rest. -/
def consumeTok : Tok → List Char → Option (Char × List Char)
  | .lit c, d :: s => if d == c then some (d, s) else none
  | .cls cs, d :: s => if cs.contains d then some (d, s) else none
  | .digit, d :: s => if d.isDigit then some (d, s) else none
  | .ws1, d :: s => if isSpaceChar d then some (d, s.dropWhile isSpaceChar) else none
  | .dplus, d :: s => if d.isDigit then some (d, s.dropWhile Char.isDigit) else none
  | .wplus, d :: s => if isWordChar d then some (d, s.dropWhile isWordChar) else none
  | _, [] => none

/-- Match a phrase (token list) at the front of `s`; `lastc` threads the last
consumed character, for the trailing word-boundary test. -/
def matchToks : List Tok → Char → List Char → Option (Char × List Char)
  | [], lastc, s => some (lastc, s)
  | t :: ts, _, s =>
    match consumeTok t s with
    | some (c, rest) => matchToks ts c rest
    | none => none

/-- Regex `\b` before the match: the sides differ in `\w`-class
(string start counts as non-word). -/
def boundaryBefore (prev : Option Char) (first : Char) : Bool :=
  match prev with
  | none => isWordChar first
  | some p => isWordChar p != isWordChar first

/-- Regex `\b` after the match (string end counts as non-word). -/
def boundaryAfter (lastc : Char) (rest : List Char) : Bool :=
  match rest with
  | [] => isWordChar lastc
  | c :: _ => isWordChar lastc != isWordChar c

/-- A single alternative matches at the front of `s` with a valid trailing
boundary. -/
def altMatchesHere (alt : List Tok) (s : List Char) : Bool :=
  match s with
  | [] => false
  | c :: _ =>
    match matchToks alt c s with
    | some (lastc, rest) => boundaryAfter lastc rest
    | none => false

/-- `re.search` of `\b(alt|…)\b`: some alternative matches at some position,
with word boundaries on both sides. `prev` is the character before the
current position. -/
def searchWordAlt (alts : List (List Tok)) : Option Char → List Char → Bool
  | _, [] => false
  | prev, c :: rest =>
    (alts.any fun alt => boundaryBefore prev c && altMatchesHere alt (c :: rest))
    || searchWordAlt alts (some c) rest

inductive Pat where
  | wordAlt (alts : List (List Tok))
  | endsWithQ

/-- Python `re.search(r"\?$", s)`: `?` at the end, or before a final newline. -/
def endsWithQmark (s : List Char) : Bool :=
  match s.reverse with
  | '?' :: _ => true
  | '\n' :: '?' :: _ => true
  | _ => false

def matchPat (p : Pat) (s : List Char) : Bool :=
  match p with
  | .wordAlt alts => searchWordAlt alts none s
  | .endsWithQ => endsWithQmark s

/-- A purely literal phrase, as a token list. -/
def litToks (w : String) : List Tok := w.data.map Tok.lit

/-- `\b(w|…|w)\b` over literal phrases. -/
def wordAltOf (ws : List String) : Pat := .wordAlt (ws.map litToks)

/-! ### ToxicityDetector (`services/toxicity_detector.py`)

The five `toxic_patterns`, in source order, with the severity each index is
assigned by `pattern_severity`. -/

/-- Pattern 0: `\b(hate|stupid|idiot|dumb|moron)\b`. -/
def toxicPat0 : Pat := wordAltOf ["hate", "stupid", "idiot", "dumb", "moron"]

/-- Pattern 1: `\b(kill\s+yourself|kys)\b`. -/
def toxicPat1 : Pat :=
  .wordAlt [litToks "kill" ++ [Tok.ws1] ++ litToks "yourself", litToks "kys"]

/-- Pattern 2: `\b(f[*u]ck|sh[*i]t|damn)\b`. -/
def toxicPat2 : Pat :=
  .wordAlt [[Tok.lit 'f', Tok.cls ['*', 'u'], Tok.lit 'c', Tok.lit 'k'],
            [Tok.lit 's', Tok.lit 'h', Tok.cls ['*', 'i'], Tok.lit 't'],
            litToks "damn"]

/-- Pattern 3: `\b(racist|sexist|homophobic)\b`. -/
def toxicPat3 : Pat := wordAltOf ["racist", "sexist", "homophobic"]

/-- Pattern 4: `\b(die|death|suicide)\b`. -/
def toxicPat4 : Pat := wordAltOf ["die", "death", "suicide"]

/-- `severity_weights`: mild 0.3, moderate 0.6, severe 0.9. -/
def severityWeight : String → ℚ
  | "mild" => 3/10
  | "moderate" => 6/10
  | "severe" => 9/10
  | _ => 0

/-- `toxic_patterns` zipped with `pattern_severity` (index 0 moderate,
1 severe, 2 mild, 3 severe, 4 severe), in source order. -/
def toxicPatterns : List (Pat × String) :=
  [(toxicPat0, "moderate"), (toxicPat1, "severe"), (toxicPat2, "mild"),
   (toxicPat3, "severe"), (toxicPat4, "severe")]

/-- Heuristic bump: `+0.1` if `len(text) > 10 and text.isupper()`. -/
def upperBump (text : String) : ℚ :=
  if text.data.length > 10 && pyIsUpper text.data then 1/10 else 0

/-- Heuristic bump: `+0.05` if `text.count('!') > 3`. -/
def exclBump (text : String) : ℚ :=
  if countChar '!' text.data > 3 then 1/20 else 0

/-- Python `re.search(r"(.)\1{4,}", text)`: five consecutive equal
characters whose repeated character is not a newline (`.` excludes `\n`). -/
def startsWithFive (c : Char) (s : List Char) : Bool :=
  match s with
  | d1 :: d2 :: d3 :: d4 :: _ => (d1 == c) && (d2 == c) && (d3 == c) && (d4 == c)
  | _ => false

def hasRepeat5 : List Char → Bool
  | [] => false
  | c :: rest => ((c != '\n') && startsWithFive c rest) || hasRepeat5 rest

/-- Heuristic bump: `+0.05` if some character repeats at least five times
consecutively. -/
def repeatBump (text : String) : ℚ :=
  if hasRepeat5 text.data then 1/20 else 0

/-- `ToxicityDetector.analyze`: the max-accumulating pattern loop over the
lower-cased text, then the three additive heuristics on the original text,
capped at 1.0. (The `try/except` never fires: the embedding is total.) -/
def localToxicity (text : String) : ℚ :=
  let tl := lowerData text
  let base := toxicPatterns.foldl
    (fun acc ps => if matchPat ps.1 tl then max acc (severityWeight ps.2) else acc) 0
  min (base + upperBump text + exclBump text + repeatBump text) 1

/-- The severity weights of the pattern categories that match `text`
(claim-side view of the loop). -/
def matchedWeights (text : String) : List ℚ :=
  toxicPatterns.filterMap
    (fun ps => if matchPat ps.1 (lowerData text) then some (severityWeight ps.2) else none)

/-- The maximum matched severity weight (0 when nothing matches). -/
def maxMatchedWeight (text : String) : ℚ := (matchedWeights text).foldr max 0

/-! ### PerspectiveAPIClient (`services/perspective_api.py`)

The external toxicity service is a collaborator: each call's outcome is an
element of `PerspOutcome`. Every non-`ok` branch of `analyze_toxicity`
returns the score `0.0` instead of raising, so the embedding is a total
function — no exception propagates from the external call. -/

structure PerspScores where
  toxicity : ℚ
  severeToxicity : ℚ
  identityAttack : ℚ
  insult : ℚ
  profanity : ℚ
  threat : ℚ

inductive PerspOutcome where
  /-- `GOOGLE_PERSPECTIVE_API_KEY` is not configured. -/
  | noKey
  /-- The HTTP request returned a status other than 200. -/
  | httpNon200 (status : Nat)
  /-- The request timed out (`asyncio.TimeoutError`). -/
  | timeout
  /-- Any other exception during the call. -/
  | exception
  /-- HTTP 200 with the six `summaryScore` attribute values. -/
  | ok (scores : PerspScores)

/-- `PerspectiveAPIClient.analyze_toxicity`: the fixed weighted blend of the
six attributes on success, `0.0` on every failure path. -/
def analyzeToxicityExternal : PerspOutcome → ℚ
  | .noKey => 0
  | .httpNon200 _ => 0
  | .timeout => 0
  | .exception => 0
  | .ok s =>
    min (s.toxicity * (4/10) + s.severeToxicity * (3/10) + s.identityAttack * (1/10)
      + s.insult * (1/10) + s.profanity * (1/20) + s.threat * (1/20)) 1

/-- The outcomes on which the external service is unavailable, errors or
times out (including a missing API key). -/
def perspFailed : PerspOutcome → Bool
  | .ok _ => false
  | _ => true

/-- The combined toxicity of `analyze_comment` (main.py line 99):
`toxicity_result * 0.7 + perspective_toxicity * 0.3`. -/
def combinedToxicity (text : String) (o : PerspOutcome) : ℚ :=
  localToxicity text * (7/10) + analyzeToxicityExternal o * (3/10)

/-! ### SentimentAnalyzer (`services/sentiment_analyzer.py`)

VADER and TextBlob are external lexical estimators; their per-text outputs
are oracle values (`VaderScores`, `BlobSentiment`). -/

structure VaderScores where
  neg : ℚ
  neu : ℚ
  pos : ℚ
  compound : ℚ

structure BlobSentiment where
  polarity : ℚ
  subjectivity : ℚ

structure SentimentResult where
  label : String
  score : ℚ
  confidence : ℚ

/-- The weighted combination `compound_score * 0.7 + textblob_polarity * 0.3`. -/
def sentimentCombine (v : VaderScores) (b : BlobSentiment) : ℚ :=
  v.compound * (7/10) + b.polarity * (3/10)

/-- The threshold labelling of the combined score. -/
def sentimentLabel (combined : ℚ) : String :=
  if combined ≥ 1/20 then "positive"
  else if combined ≤ -(1/20) then "negative"
  else "neutral"

/-- `SentimentAnalyzer.analyze` on the success path: combined score, the
threshold label, and `confidence = abs(combined_score)`. -/
def sentimentAnalyze (v : VaderScores) (b : BlobSentiment) : SentimentResult :=
  { label := sentimentLabel (sentimentCombine v b)
    score := sentimentCombine v b
    confidence := |sentimentCombine v b| }

/-- The raw emotion mapping of `analyze_emotions`, in the source's dict
order: joy, anger, sadness, fear, surprise, disgust. -/
def emotionsRaw (v : VaderScores) : List (String × ℚ) :=
  [("joy", max 0 v.pos),
   ("anger", max 0 (v.neg * (8/10))),
   ("sadness", max 0 (v.neg * (6/10))),
   ("fear", max 0 (v.neg * (4/10))),
   ("surprise", |v.compound| * (3/10)),
   ("disgust", max 0 (v.neg * (7/10)))]

def emotionsTotal (v : VaderScores) : ℚ := ((emotionsRaw v).map Prod.snd).sum

/-- `SentimentAnalyzer.analyze_emotions`: normalize to sum 1 only when the
total is positive; otherwise return the raw mapping unchanged. -/
def analyzeEmotions (v : VaderScores) : List (String × ℚ) :=
  if emotionsTotal v > 0 then
    (emotionsRaw v).map (fun kv => (kv.1, kv.2 / emotionsTotal v))
  else emotionsRaw v

/-! ### ThemeExtractor (`services/theme_extractor.py`) -/

/-- The `theme_keywords` taxonomy, in source (declaration) order. -/
def themeKeywordTable : List (String × List String) :=
  [("appreciation", ["love", "amazing", "awesome", "great", "fantastic", "wonderful",
      "excellent", "brilliant"]),
   ("criticism", ["bad", "terrible", "awful", "horrible", "worst", "disappointing",
      "boring"]),
   ("questions", ["why", "how", "what", "when", "where", "who", "?"]),
   ("suggestions", ["should", "could", "would", "try", "maybe", "suggest", "idea",
      "think"]),
   ("personal_story", ["i", "me", "my", "myself", "personal", "experience", "story"]),
   ("technical", ["code", "programming", "software", "bug", "feature", "technical",
      "algorithm"]),
   ("entertainment", ["funny", "hilarious", "laugh", "lol", "haha", "comedy",
      "entertainment"]),
   ("educational", ["learn", "tutorial", "explain", "understand", "knowledge",
      "education"]),
   ("emotional", ["feel", "emotion", "sad", "happy", "angry", "excited", "worried"]),
   ("community", ["everyone", "community", "together", "group", "people", "fans"]),
   ("requests", ["please", "can you", "request", "want", "need", "hope"]),
   ("spam", ["subscribe", "like", "follow", "check out", "click", "link", "promo"])]

/-- A theme's score: for each keyword contained in the lower-cased text, add
its non-overlapping occurrence count. -/
def themeScore (tl : List Char) (kws : List String) : Nat :=
  kws.foldl (fun acc kw => if pyContains kw.data tl then acc + pyCount kw.data tl else acc) 0

/-- The `(theme, score)` pairs with positive score, in declaration order. -/
def detectedThemesScored (tl : List Char) : List (String × Nat) :=
  themeKeywordTable.filterMap
    (fun tk => if themeScore tl tk.2 > 0 then some (tk.1, themeScore tl tk.2) else none)

/-- The sort key of `detected_themes.sort(key=lambda x: x[1], reverse=True)`:
descending score; Python's sort is stable, as is insertion sort with this
relation. -/
def themeGE (a b : String × Nat) : Prop := b.2 ≤ a.2

instance : DecidableRel themeGE := fun a b => Nat.decLe b.2 a.2

instance : IsTotal (String × Nat) themeGE := ⟨fun a b => Nat.le_total b.2 a.2⟩

instance : IsTrans (String × Nat) themeGE := ⟨fun _ _ _ h1 h2 => Nat.le_trans h2 h1⟩

/-- The primary (keyword-taxonomy) branch of `extract_themes`: sort the
scored themes by descending score and keep the names of the first
`maxThemes`. -/
def primaryThemes (text : String) (maxThemes : Nat) : List String :=
  ((List.insertionSort themeGE (detectedThemesScored (lowerData text))).take maxThemes).map
    Prod.fst

def emotionalWordsFallback : List String :=
  ["feel", "love", "hate", "sad", "happy", "angry", "excited"]

def personalIndicators : List String := ["i ", "me ", "my ", "myself"]

def positiveWordsFallback : List String := ["great", "awesome", "love", "amazing", "excellent"]

def negativeWordsFallback : List String := ["bad", "terrible", "awful", "hate", "worst"]

/-- `_extract_content_themes`: the fixed-priority content heuristics,
truncated to 3. -/
def contentThemes (tl : List Char) : List String :=
  ((if tl.contains '?'
        || (["why", "how", "what", "when", "where"].any fun w => pyContains w.data tl) then
      ["questions"] else [])
    ++ (if emotionalWordsFallback.any (fun w => pyContains w.data tl) then
      ["emotional"] else [])
    ++ (if personalIndicators.any (fun w => pyContains w.data tl) then
      ["personal_story"] else [])
    ++ (if positiveWordsFallback.any (fun w => pyContains w.data tl) then
      ["appreciation"]
    else if negativeWordsFallback.any (fun w => pyContains w.data tl) then
      ["criticism"] else [])).take 3

/-- `ThemeExtractor.extract_themes` (`max_themes` defaults to 5 at the call
sites): the keyword taxonomy pass, falling back to the content heuristics
when it yields nothing. -/
def extractThemes (text : String) (maxThemes : Nat) : List String :=
  let themes := primaryThemes text maxThemes
  if themes.isEmpty then contentThemes (lowerData text) else themes

/-! ### CommentTagger (`services/comment_tagger.py`)

The `tag_patterns` taxonomy, category by category in source (dict) order.
Each regex is an alternation of literal phrases inside `\b(...)\b`, except
for `\?$` (Confusion/Question), `@\w+` (Community Interaction) and the
timestamp digit patterns, which are written as token lists. -/

def productPraisePats : List Pat :=
  [wordAltOf ["love", "great", "amazing", "awesome", "fantastic", "excellent",
      "brilliant", "perfect", "wonderful", "outstanding", "superb", "incredible",
      "helpful", "useful", "beneficial", "valuable", "thanks", "thank you",
      "appreciate", "grateful"],
   wordAltOf ["best", "favorite", "top", "outstanding", "phenomenal", "spectacular",
      "marvelous", "splendid", "magnificent"]]

def featureRequestPats : List Pat :=
  [wordAltOf ["i wish", "can you add", "would be better if", "please include",
      "please add", "could you add", "it would be great if", "would love to see",
      "hope you add", "suggest adding"],
   wordAltOf ["feature request", "new feature", "missing feature", "add support for",
      "implement", "add option for"]]

def hateSpeechPats : List Pat :=
  [wordAltOf ["kill yourself", "die", "hate you", "you suck", "you're stupid",
      "you're dumb", "you're an idiot", "you're worthless", "you're trash",
      "you're garbage", "you're useless", "you're pathetic", "you're a joke",
      "you're a loser"],
   wordAltOf ["fuck you", "fuck off", "go to hell", "burn in hell", "rot in hell",
      "piece of shit", "worthless piece of shit", "stupid ass", "dumb ass", "idiot",
      "moron", "retard"]]

def feedbackPats : List Pat :=
  [wordAltOf ["feedback", "suggestion", "improvement", "constructive", "criticism",
      "advice", "tip", "recommendation", "input", "comment", "thought", "idea"],
   wordAltOf ["could be better", "needs improvement", "suggest", "recommend",
      "consider", "think about", "maybe try", "perhaps", "might want to"]]

def confusionQuestionPats : List Pat :=
  [.endsWithQ,
   wordAltOf ["what", "how", "why", "when", "where", "who", "which",
      "can you explain", "i don't understand", "confused", "unclear", "not sure",
      "what's going on", "how do i", "what does this mean"],
   wordAltOf ["help", "clarify", "explain", "elaborate", "what do you mean",
      "i'm confused", "not clear", "unclear", "puzzled"]]

def spamPats : List Pat :=
  [wordAltOf ["check out my", "visit my", "follow me", "subscribe to my",
      "my channel", "my video", "my content", "my website", "my blog",
      "my instagram", "my tiktok", "my twitter"],
   wordAltOf ["promote", "advertisement", "sponsored", "paid", "commission",
      "affiliate", "link in bio", "click here", "buy now", "limited time", "offer",
      "deal", "discount"],
   wordAltOf ["bot", "automated", "script", "program", "algorithm",
      "auto-generated", "spam", "repetitive", "copied", "duplicate"]]

def calloutPats : List Pat :=
  [wordAltOf ["error", "mistake", "wrong", "incorrect", "false", "misleading",
      "inaccurate", "false information", "wrong info", "not true", "that's wrong",
      "you're wrong", "incorrect", "mistake", "error", "bug", "glitch", "problem",
      "issue"],
   wordAltOf ["misquote", "misquoted", "taken out of context", "misinterpreted",
      "misunderstood", "misrepresented"]]

/-- `\d{1,2}` expanded into its one- and two-digit alternatives. -/
def timestampPats : List Pat :=
  [.wordAlt [[Tok.digit, Tok.lit ':', Tok.digit, Tok.digit],
     [Tok.digit, Tok.digit, Tok.lit ':', Tok.digit, Tok.digit],
     litToks "timestamp",
     litToks "at " ++ [Tok.digit, Tok.lit ':', Tok.digit, Tok.digit],
     litToks "at " ++ [Tok.digit, Tok.digit, Tok.lit ':', Tok.digit, Tok.digit],
     litToks "minute " ++ [Tok.dplus],
     litToks "second " ++ [Tok.dplus],
     [Tok.dplus, Tok.lit ':', Tok.dplus] ++ litToks " had me",
     litToks "at " ++ [Tok.dplus, Tok.lit ':', Tok.dplus]],
   .wordAlt [litToks "time " ++ [Tok.dplus, Tok.lit ':', Tok.dplus],
     litToks "mark " ++ [Tok.dplus, Tok.lit ':', Tok.dplus],
     litToks "around " ++ [Tok.dplus, Tok.lit ':', Tok.dplus],
     litToks "near " ++ [Tok.dplus, Tok.lit ':', Tok.dplus],
     litToks "about " ++ [Tok.dplus, Tok.lit ':', Tok.dplus]]]

def requestsIdeasPats : List Pat :=
  [wordAltOf ["do a part 2", "make another", "next video", "cover this",
      "you have to check out", "you should try", "you need to see", "you must visit",
      "you have to go to", "recommend", "suggest", "idea for", "next time",
      "in the future"],
   wordAltOf ["restaurant", "cafe", "place", "location", "spot", "venue",
      "establishment", "joint", "eatery", "dining", "food", "meal", "dish",
      "cuisine"]]

def praiseCreatorPats : List Pat :=
  [wordAltOf ["you're amazing", "you're awesome", "you're great", "you're the best",
      "love your channel", "love you", "you're incredible", "you're wonderful",
      "you're fantastic", "you're brilliant", "you're perfect", "you're outstanding"],
   wordAltOf ["creator", "youtuber", "influencer", "content creator", "host",
      "presenter", "speaker", "teacher", "instructor", "guide", "mentor",
      "role model"]]

def praiseVideoPats : List Pat :=
  [wordAltOf ["this edit", "this video", "this content", "this episode",
      "this tutorial", "this guide", "this explanation", "this demonstration",
      "this presentation", "this lesson", "this class", "this session"],
   wordAltOf ["editing", "production", "quality", "cinematography", "filming",
      "recording", "audio", "visual", "graphics", "effects", "transitions", "music",
      "sound"]]

def communityInteractionPats : List Pat :=
  [.wordAlt ([[Tok.lit '@', Tok.wplus]]
     ++ (["tag", "mention", "reply to", "respond to", "answer", "respond", "reply",
       "comment on", "discuss", "debate", "conversation", "dialogue",
       "exchange"].map litToks)),
   wordAltOf ["other video", "another video", "previous video", "last video",
      "next video", "related video", "similar video", "check out", "watch",
      "see also", "also see"]]

def insideJokePats : List Pat :=
  [wordAltOf ["meme", "joke", "funny", "hilarious", "lol", "lmao", "rofl", "haha",
      "😂", "😅", "😆", "😄", "😁", "😊", "😋", "😎", "🤣", "😭", "😱", "😤", "😤", "😤"],
   wordAltOf ["reference", "callback", "throwback", "nostalgia", "remember when",
      "good times", "classic", "legendary", "iconic", "famous", "viral", "trending"]]

def sensitiveTopicsPats : List Pat :=
  [wordAltOf ["politics", "political", "government", "election", "vote", "democrat",
      "republican", "liberal", "conservative", "left", "right", "progressive",
      "traditional"],
   wordAltOf ["religion", "religious", "god", "jesus", "christ", "bible", "church",
      "mosque", "temple", "prayer", "faith", "belief", "spiritual", "divine", "holy",
      "sacred"],
   wordAltOf ["abortion", "contraception", "birth control", "pregnancy",
      "reproductive", "pro-choice", "pro-life", "women's rights", "gender",
      "sexuality", "lgbtq", "transgender", "non-binary"]]

def potentialConflictPats : List Pat :=
  [wordAltOf ["argument", "debate", "dispute", "conflict", "controversy",
      "disagreement", "opposition", "rivalry", "competition", "fight", "battle",
      "war", "attack", "defend", "defense", "offensive", "aggressive", "hostile",
      "angry", "mad", "furious", "enraged"],
   wordAltOf ["triggered", "offended", "upset", "annoyed", "irritated", "frustrated",
      "disappointed", "disgusted", "appalled", "shocked", "outraged", "infuriated"]]

def toxicityTagPats : List Pat :=
  [wordAltOf ["toxic", "poisonous", "harmful", "damaging", "destructive", "negative",
      "hostile", "aggressive", "abusive", "insulting", "offensive", "disrespectful",
      "rude", "mean", "cruel", "harsh", "brutal", "vicious", "malicious", "spiteful",
      "hateful"],
   wordAltOf ["trigger", "triggered", "snowflake", "sensitive", "easily offended",
      "overreacting", "dramatic", "exaggerating", "making a big deal",
      "blowing things out of proportion"]]

/-- `tag_patterns`, in source (dict) order. -/
def tagPatternTable : List (String × List Pat) :=
  [("Product Praise", productPraisePats),
   ("Feature Request", featureRequestPats),
   ("Hate Speech", hateSpeechPats),
   ("Feedback", feedbackPats),
   ("Confusion/Question", confusionQuestionPats),
   ("Spam", spamPats),
   ("Callout", calloutPats),
   ("Timestamp Reference", timestampPats),
   ("Requests/Ideas", requestsIdeasPats),
   ("Praise for Creator", praiseCreatorPats),
   ("Praise for Video", praiseVideoPats),
   ("Community Interaction", communityInteractionPats),
   ("Inside Joke/Meme", insideJokePats),
   ("Sensitive Topics", sensitiveTopicsPats),
   ("Potential Conflict", potentialConflictPats),
   ("Toxicity", toxicityTagPats)]

structure TagResult where
  tags : List String
  tag_count : Nat
  primary_tag : Option String

/-- The category loop of `tag_comment`: each category is appended at most
once (the inner `break` is `List.any`), in taxonomy order. -/
def detectedTags (tl : List Char) : List String :=
  tagPatternTable.filterMap
    (fun cp => if cp.2.any (fun p => matchPat p tl) then some cp.1 else none)

/-- The dedup loop of `tag_comment`: keep the first occurrence of each tag. -/
def pyDedup (l : List String) : List String :=
  l.foldl (fun acc t => if t ∈ acc then acc else acc ++ [t]) []

/-- The two escalation rules of `tag_comment` (lines 99–103), in source
order: "Hate Speech" appends "Toxicity", then "Sensitive Topics" (checked on
the updated list) appends "Potential Conflict". -/
def escalateTags (d1 : List String) : List String :=
  let d2 := if "Hate Speech" ∈ d1 then d1 ++ ["Toxicity"] else d1
  if "Sensitive Topics" ∈ d2 then d2 ++ ["Potential Conflict"] else d2

/-- `CommentTagger.tag_comment`: detection pass, the two escalation rules in
source order, dedup preserving first-seen order, `primary_tag` the head. -/
def tagComment (text : String) : TagResult :=
  let u := pyDedup (escalateTags (detectedTags (lowerData text)))
  { tags := u, tag_count := u.length, primary_tag := u.head? }

/-! ### The FastAPI orchestration (`main.py`) -/

structure CommentRequest where
  comment_id : String
  content : String
  video_id : Option String

structure AnalysisResponse where
  comment_id : String
  sentiment : String
  sentiment_score : ℚ
  toxicity_score : ℚ
  themes : List String
  emotions : List (String × ℚ)

/-- The per-text outcomes of the external collaborators during one request:
the two sentiment estimators and the Perspective call. -/
structure AnalysisEnv where
  vader : String → VaderScores
  blob : String → BlobSentiment
  persp : String → PerspOutcome

/-- The sub-analysis awaits of `analyze_comment`, in the order the source
issues them (main.py lines 90–96). The comment tagger is not among them. -/
inductive SvcCall where
  | sentimentA
  | toxicityA
  | themesA
  | emotionsA
  | perspectiveA
  | taggerA
deriving DecidableEq

/-- `analyze_comment` (main.py lines 83–111): each sub-analysis is awaited to
completion before the next is issued; the returned trace records the awaits
in source order. The response combines the toxicity scores as
`toxicity_result * 0.7 + perspective_toxicity * 0.3`. -/
def analyzeComment (env : AnalysisEnv) (req : CommentRequest) :
    AnalysisResponse × List SvcCall :=
  let sres := sentimentAnalyze (env.vader req.content) (env.blob req.content)
  let tox := localToxicity req.content
  let th := extractThemes req.content 5
  let em := analyzeEmotions (env.vader req.content)
  let pt := analyzeToxicityExternal (env.persp req.content)
  ({ comment_id := req.comment_id
     sentiment := sres.label
     sentiment_score := sres.score
     toxicity_score := tox * (7/10) + pt * (3/10)
     themes := th
     emotions := em },
   [.sentimentA, .toxicityA, .themesA, .emotionsA, .perspectiveA])

/-- A batch response: `results` is present exactly on the synchronous path,
`message` exactly on the deferred path. -/
structure BatchResponse where
  status : String
  results : Option (List AnalysisResponse)
  message : Option String

/-- The synchronous loop of `analyze_batch`: per comment in input order,
append the analysis result, or skip the comment when its analysis fails
(`except … continue`). The per-comment analysis outcome is abstracted as
`f`. -/
def processSync (f : CommentRequest → Except String AnalysisResponse) :
    List CommentRequest → List AnalysisResponse
  | [] => []
  | c :: cs =>
    match f c with
    | .ok r => r :: processSync f cs
    | .error _ => processSync f cs

/-- `analyze_batch` (main.py lines 117–138): batches over 10 comments are
deferred to background processing and answered immediately with status
"processing" (no results field); batches of at most 10 are processed
synchronously with status "completed". -/
def analyzeBatch (f : CommentRequest → Except String AnalysisResponse)
    (comments : List CommentRequest) : BatchResponse :=
  if comments.length > 10 then
    { status := "processing", results := none, message := some "Batch analysis started" }
  else
    { status := "completed", results := some (processSync f comments), message := none }

/-! ## Claim C1 — external toxicity failure degrades gracefully -/

/-- C1: if the external toxicity service is unavailable, errors or times out
(including a missing API key), then for every input text the external term is
0.0 and the combined score of the analysis equals the local `ToxicityScorer`
score times 0.7; the external call returns a value (the embedding is total),
so no exception propagates. -/
theorem external_failure_degrades_toxicity (text : String) (o : PerspOutcome)
    (h : perspFailed o = true) :
    analyzeToxicityExternal o = 0
    ∧ combinedToxicity text o = localToxicity text * (7/10) := by
  cases o <;> simp_all [perspFailed, analyzeToxicityExternal, combinedToxicity]

/-- Witness for C1 at the concrete text "hello" and the missing-key outcome. -/
theorem external_failure_degrades_toxicity_witness :
    analyzeToxicityExternal PerspOutcome.noKey = 0
    ∧ combinedToxicity "hello" PerspOutcome.noKey = localToxicity "hello" * (7/10) :=
  external_failure_degrades_toxicity "hello" PerspOutcome.noKey rfl

/-! ## Claim C4 — sentiment combination and label thresholds -/

/-- C4: on the success path the sentiment score is
`0.7 * compound + 0.3 * polarity`, and the label is "positive" exactly when
the combined score is ≥ 0.05, "negative" exactly when ≤ −0.05, and "neutral"
otherwise. -/
theorem sentiment_combine_and_label (v : VaderScores) (b : BlobSentiment) :
    (sentimentAnalyze v b).score = (7/10) * v.compound + (3/10) * b.polarity
    ∧ ((sentimentAnalyze v b).label = "positive" ↔ 1/20 ≤ sentimentCombine v b)
    ∧ ((sentimentAnalyze v b).label = "negative" ↔ sentimentCombine v b ≤ -(1/20))
    ∧ ((sentimentAnalyze v b).label = "neutral" ↔
        ¬ 1/20 ≤ sentimentCombine v b ∧ ¬ sentimentCombine v b ≤ -(1/20)) := by
  refine ⟨by simp [sentimentAnalyze, sentimentCombine]; ring, ?_, ?_, ?_⟩ <;>
    simp only [sentimentAnalyze, sentimentLabel, ge_iff_le] <;>
    split_ifs with h1 h2 <;>
    simp_all <;>
    linarith

/-! ## Claim C3 — batch size threshold -/

/-- The synchronous loop keeps the successful analyses in input order and
skips the failed ones. -/
theorem processSync_eq_filterMap (f : CommentRequest → Except String AnalysisResponse) :
    ∀ comments, processSync f comments = comments.filterMap fun c => (f c).toOption := by
  intro comments
  induction comments with
  | nil => rfl
  | cons c cs ih => cases hfc : f c <;> simp [processSync, hfc, Except.toOption, ih]

/-- C3: a batch of exactly 10 comments is processed synchronously — status
"completed", with the results of the successful analyses in input order,
failures skipped; a batch of 11 comments returns immediately with status
"processing" and no results field. -/
theorem batch_threshold (f : CommentRequest → Except String AnalysisResponse)
    (comments : List CommentRequest) :
    (comments.length = 10 →
      analyzeBatch f comments =
        { status := "completed"
          results := some (comments.filterMap fun c => (f c).toOption)
          message := none })
    ∧ (comments.length = 11 →
      analyzeBatch f comments =
        { status := "processing"
          results := none
          message := some "Batch analysis started" }) := by
  constructor
  · intro h
    simp [analyzeBatch, h, processSync_eq_filterMap]
  · intro h
    simp [analyzeBatch, h]

/-! ## Claim C9 — single-comment orchestration is sequential, without the tagger -/

/-- Amended C9: `analyze_comment` awaits sentiment, local toxicity, themes,
emotions and the external toxicity call strictly in that sequential order
(each completes before the next is issued; there is no fan-out), never
invokes the comment tagger, and assembles the response after the last call. -/
theorem orchestration_sequential_no_tagger (env : AnalysisEnv) (req : CommentRequest) :
    (analyzeComment env req).2
      = [SvcCall.sentimentA, SvcCall.toxicityA, SvcCall.themesA, SvcCall.emotionsA,
         SvcCall.perspectiveA]
    ∧ SvcCall.taggerA ∉ (analyzeComment env req).2 := by
  have htrace : (analyzeComment env req).2
      = [SvcCall.sentimentA, SvcCall.toxicityA, SvcCall.themesA, SvcCall.emotionsA,
         SvcCall.perspectiveA] := rfl
  refine ⟨htrace, ?_⟩
  rw [htrace]
  decide

/-- An environment whose collaborators return fixed values. -/
def constAnalysisEnv : AnalysisEnv :=
  { vader := fun _ => ⟨0, 0, 0, 0⟩
    blob := fun _ => ⟨0, 0⟩
    persp := fun _ => .noKey }

def sampleRequest : CommentRequest :=
  { comment_id := "c1", content := "hello", video_id := none }

/-- Counterexample to C9 as stated: the orchestration of a concrete comment
never invokes the tagger (so it does not invoke "all four" components
sentiment/toxicity/themes/tags, and its calls are issued sequentially in a
fixed order rather than as concurrently-running fanned-out tasks). -/
theorem orchestration_tagger_never_called :
    SvcCall.taggerA ∉ (analyzeComment constAnalysisEnv sampleRequest).2 := by
  decide

/-! ## Claim C8 — tag list invariants -/

theorem pyDedup_foldl_nodup :
    ∀ (l acc : List String), acc.Nodup →
      (List.foldl (fun acc t => if t ∈ acc then acc else acc ++ [t]) acc l).Nodup
  | [], _, h => h
  | t :: l, acc, h => by
    by_cases hc : t ∈ acc
    · simpa [hc] using pyDedup_foldl_nodup l acc h
    · have hn : (acc ++ [t]).Nodup := by simp [List.nodup_append, h, hc]
      simpa [hc] using pyDedup_foldl_nodup l (acc ++ [t]) hn

theorem pyDedup_foldl_mem :
    ∀ (l acc : List String) (x : String),
      (x ∈ List.foldl (fun acc t => if t ∈ acc then acc else acc ++ [t]) acc l
        ↔ x ∈ acc ∨ x ∈ l)
  | [], acc, x => by simp
  | t :: l, acc, x => by
    by_cases hc : t ∈ acc
    · simp only [List.foldl_cons, if_pos hc, List.mem_cons]
      rw [pyDedup_foldl_mem l acc x]
      constructor
      · rintro (h | h) <;> tauto
      · rintro (h | rfl | h) <;> tauto
    · simp only [List.foldl_cons, if_neg hc, List.mem_cons]
      rw [pyDedup_foldl_mem l (acc ++ [t]) x]
      simp only [List.mem_append, List.mem_singleton]
      tauto

theorem pyDedup_nodup (l : List String) : (pyDedup l).Nodup :=
  pyDedup_foldl_nodup l [] (by simp)

theorem mem_pyDedup {x : String} {l : List String} : x ∈ pyDedup l ↔ x ∈ l := by
  simp [pyDedup, pyDedup_foldl_mem]

theorem escalateTags_hate {d1 : List String} (h : "Hate Speech" ∈ escalateTags d1) :
    "Toxicity" ∈ escalateTags d1 := by
  unfold escalateTags at h ⊢
  by_cases h1 : "Hate Speech" ∈ d1
  · rw [if_pos h1] at h ⊢
    by_cases h2 : "Sensitive Topics" ∈ d1 ++ ["Toxicity"]
    · rw [if_pos h2]
      exact List.mem_append.mpr (Or.inl (List.mem_append.mpr (Or.inr (by simp))))
    · rw [if_neg h2]
      exact List.mem_append.mpr (Or.inr (by simp))
  · rw [if_neg h1] at h ⊢
    by_cases h2 : "Sensitive Topics" ∈ d1
    · rw [if_pos h2] at h ⊢
      rcases List.mem_append.mp h with h3 | h3
      · exact absurd h3 h1
      · have h4 : ("Hate Speech" : String) = "Potential Conflict" := by simpa using h3
        exact absurd h4 (by decide)
    · rw [if_neg h2] at h ⊢
      exact absurd h h1

theorem escalateTags_sensitive {d1 : List String}
    (h : "Sensitive Topics" ∈ escalateTags d1) :
    "Potential Conflict" ∈ escalateTags d1 := by
  unfold escalateTags at h ⊢
  by_cases h1 : "Hate Speech" ∈ d1
  · rw [if_pos h1] at h ⊢
    by_cases h2 : "Sensitive Topics" ∈ d1 ++ ["Toxicity"]
    · rw [if_pos h2]
      exact List.mem_append.mpr (Or.inr (by simp))
    · rw [if_neg h2] at h ⊢
      exact absurd h h2
  · rw [if_neg h1] at h ⊢
    by_cases h2 : "Sensitive Topics" ∈ d1
    · rw [if_pos h2]
      exact List.mem_append.mpr (Or.inr (by simp))
    · rw [if_neg h2] at h ⊢
      exact absurd h h2

/-- C8: for every input text, the returned tag list has no duplicates,
"Hate Speech" in the list implies "Toxicity" in the list, "Sensitive Topics"
implies "Potential Conflict", and `primary_tag` is the first tag (none when
the list is empty). -/
theorem tag_comment_invariants (text : String) :
    (tagComment text).tags.Nodup
    ∧ ("Hate Speech" ∈ (tagComment text).tags → "Toxicity" ∈ (tagComment text).tags)
    ∧ ("Sensitive Topics" ∈ (tagComment text).tags →
        "Potential Conflict" ∈ (tagComment text).tags)
    ∧ (tagComment text).primary_tag = (tagComment text).tags.head? := by
  have htags : (tagComment text).tags
      = pyDedup (escalateTags (detectedTags (lowerData text))) := rfl
  refine ⟨htags ▸ pyDedup_nodup _, ?_, ?_, rfl⟩
  · intro h
    rw [htags] at h ⊢
    exact mem_pyDedup.mpr (escalateTags_hate (mem_pyDedup.mp h))
  · intro h
    rw [htags] at h ⊢
    exact mem_pyDedup.mpr (escalateTags_sensitive (mem_pyDedup.mp h))

/-! ## Claim C2 — the "you're stupid, kill yourself" scenario -/

def c2text : String := "you're stupid, kill yourself"

/-- The local toxicity of the scenario text: the severe "kill yourself"
pattern dominates the moderate "stupid" match; no heuristic bump fires. -/
theorem localToxicity_c2text : localToxicity c2text = 9/10 := by
  have h0 : matchPat toxicPat0 (lowerData c2text) = true := by decide
  have h1 : matchPat toxicPat1 (lowerData c2text) = true := by decide
  have h2 : matchPat toxicPat2 (lowerData c2text) = false := by decide
  have h3 : matchPat toxicPat3 (lowerData c2text) = false := by decide
  have h4 : matchPat toxicPat4 (lowerData c2text) = false := by decide
  have hu : (decide (c2text.data.length > 10) && pyIsUpper c2text.data) = false := by decide
  have he : countChar '!' c2text.data = 0 := by decide
  have hr : hasRepeat5 c2text.data = false := by decide
  simp only [localToxicity, toxicPatterns, List.foldl_cons, List.foldl_nil,
    h0, h1, h2, h3, h4, upperBump, exclBump, repeatBump, hu, he, hr]
  norm_num [severityWeight, min_def, max_def]

theorem combinedToxicity_c2text :
    combinedToxicity c2text PerspOutcome.noKey = 63/100 := by
  rw [combinedToxicity, localToxicity_c2text]
  norm_num [analyzeToxicityExternal]

/-- Amended C2: for the input "you're stupid, kill yourself" the tag list
includes "Hate Speech" and, via escalation, "Toxicity", and the severe local
pattern match makes the local `ToxicityScorer` score 0.9; but the toxicity
score of the comment analysis combines it as `local * 0.7 + external * 0.3`,
which is 0.63 — not at least 0.9 — when the external service contributes 0. -/
theorem hate_speech_scenario :
    "Hate Speech" ∈ (tagComment c2text).tags
    ∧ "Toxicity" ∈ (tagComment c2text).tags
    ∧ localToxicity c2text = 9/10
    ∧ combinedToxicity c2text PerspOutcome.noKey = 63/100 :=
  ⟨by decide, by decide, localToxicity_c2text, combinedToxicity_c2text⟩

/-- Counterexample to C2 as stated: for the scenario input the tag list does
include "Hate Speech" and "Toxicity", but the toxicity score of the comment
analysis (with the external term contributing 0, as when no API key is
configured) is 0.63, below 0.9. -/
theorem hate_speech_scenario_score_below :
    "Hate Speech" ∈ (tagComment c2text).tags
    ∧ "Toxicity" ∈ (tagComment c2text).tags
    ∧ ¬ (9/10 ≤ combinedToxicity c2text PerspOutcome.noKey) := by
  refine ⟨by decide, by decide, ?_⟩
  rw [combinedToxicity_c2text]
  norm_num

/-! ## Claim C5 — the local toxicity score is a clamped max plus bumps -/

theorem foldr_max_nonneg (l : List ℚ) : 0 ≤ l.foldr max 0 := by
  induction l with
  | nil => exact le_rfl
  | cons x l ih => exact le_trans ih (le_max_right x _)

theorem le_foldr_max {l : List ℚ} {w : ℚ} (h : w ∈ l) : w ≤ l.foldr max 0 := by
  induction l with
  | nil => cases h
  | cons x l ih =>
    rcases List.mem_cons.mp h with rfl | h2
    · exact le_max_left _ _
    · exact le_trans (ih h2) (le_max_right _ _)

theorem foldr_max_eq_zero_or_mem (l : List ℚ) :
    l.foldr max 0 = 0 ∨ l.foldr max 0 ∈ l := by
  induction l with
  | nil => exact Or.inl rfl
  | cons x l ih =>
    rcases max_choice x (l.foldr max 0) with h | h
    · right
      rw [List.foldr_cons, h]
      exact List.mem_cons_self x l
    · rcases ih with h0 | hm
      · left
        rw [List.foldr_cons, h, h0]
      · right
        rw [List.foldr_cons, h]
        exact List.mem_cons_of_mem x hm

/-- The max-accumulating loop over matched patterns computes the maximum of
the matched weights (not their sum). -/
theorem foldl_max_eq {α : Type} (p : α → Bool) (w : α → ℚ) :
    ∀ (l : List α) (a : ℚ), 0 ≤ a →
      l.foldl (fun acc x => if p x then max acc (w x) else acc) a
        = max a ((l.filterMap fun x => if p x then some (w x) else none).foldr max 0) := by
  intro l
  induction l with
  | nil =>
    intro a ha
    simp [max_eq_left ha]
  | cons x l ih =>
    intro a ha
    by_cases hp : p x
    · simp only [List.foldl_cons, List.filterMap_cons, hp, if_true, List.foldr_cons]
      rw [ih (max a (w x)) (le_trans ha (le_max_left _ _)), max_assoc]
    · simp only [List.foldl_cons, List.filterMap_cons, hp, if_false]
      exact ih a ha

theorem upperBump_nonneg (text : String) : 0 ≤ upperBump text := by
  unfold upperBump
  split <;> norm_num

theorem exclBump_nonneg (text : String) : 0 ≤ exclBump text := by
  unfold exclBump
  split <;> norm_num

theorem repeatBump_nonneg (text : String) : 0 ≤ repeatBump text := by
  unfold repeatBump
  split <;> norm_num

/-- C5: for every text, `ToxicityScorer.analyze` equals the maximum matched
severity weight (`maxMatchedWeight` is an upper bound of the matched weights
and is itself matched or zero — a max, not a sum) plus the three independent
additive bumps, clamped to 1.0 only at the end; the result lies in [0, 1].
Determinism is immediate: the embedding is a function of the text. -/
theorem toxicity_local_analyze_spec (text : String) :
    localToxicity text
      = min (maxMatchedWeight text + upperBump text + exclBump text + repeatBump text) 1
    ∧ (∀ w ∈ matchedWeights text, w ≤ maxMatchedWeight text)
    ∧ (maxMatchedWeight text = 0 ∨ maxMatchedWeight text ∈ matchedWeights text)
    ∧ 0 ≤ localToxicity text ∧ localToxicity text ≤ 1 := by
  have hM0 : 0 ≤ maxMatchedWeight text := foldr_max_nonneg _
  have hbase :
      (toxicPatterns.foldl
        (fun acc ps => if matchPat ps.1 (lowerData text) then
          max acc (severityWeight ps.2) else acc) 0)
        = maxMatchedWeight text := by
    rw [foldl_max_eq (fun ps : Pat × String => matchPat ps.1 (lowerData text))
      (fun ps => severityWeight ps.2) toxicPatterns 0 le_rfl]
    exact max_eq_right hM0
  have heq : localToxicity text
      = min (maxMatchedWeight text + upperBump text + exclBump text + repeatBump text) 1 := by
    rw [localToxicity]
    rw [hbase]
  refine ⟨heq, fun w hw => le_foldr_max hw, foldr_max_eq_zero_or_mem _, ?_, ?_⟩
  · rw [heq]
    have : 0 ≤ maxMatchedWeight text + upperBump text + exclBump text + repeatBump text := by
      have h1 := upperBump_nonneg text
      have h2 := exclBump_nonneg text
      have h3 := repeatBump_nonneg text
      linarith
    exact le_min this (by norm_num)
  · rw [heq]
    exact min_le_right _ _

/-! ## Claim C6 — emotion distribution -/

theorem emotionsRaw_nonneg (v : VaderScores) : ∀ kv ∈ emotionsRaw v, 0 ≤ kv.2 := by
  intro kv hkv
  simp only [emotionsRaw, List.mem_cons, List.not_mem_nil, or_false] at hkv
  rcases hkv with rfl | rfl | rfl | rfl | rfl | rfl <;> simp

/-- C6: the six-emotion mapping keeps the fixed keys and weights
(joy = pos, anger = 0.8·neg, sadness = 0.6·neg, fear = 0.4·neg,
surprise = 0.3·|compound|, disgust = 0.7·neg, given the VADER contract
pos ≥ 0, neg ≥ 0); every value is non-negative; the values sum to 1 whenever
some underlying signal is non-zero; and they are all zero otherwise — the
normalization never divides by zero. -/
theorem analyze_emotions_spec (v : VaderScores) (hp : 0 ≤ v.pos) (hn : 0 ≤ v.neg) :
    (analyzeEmotions v).map Prod.fst
        = ["joy", "anger", "sadness", "fear", "surprise", "disgust"]
    ∧ (emotionsRaw v).map Prod.snd
        = [v.pos, v.neg * (8/10), v.neg * (6/10), v.neg * (4/10),
           |v.compound| * (3/10), v.neg * (7/10)]
    ∧ (∀ kv ∈ analyzeEmotions v, 0 ≤ kv.2)
    ∧ ((v.pos ≠ 0 ∨ v.neg ≠ 0 ∨ v.compound ≠ 0) →
        ((analyzeEmotions v).map Prod.snd).sum = 1)
    ∧ (v.pos = 0 ∧ v.neg = 0 ∧ v.compound = 0 →
        analyzeEmotions v = [("joy", 0), ("anger", 0), ("sadness", 0), ("fear", 0),
          ("surprise", 0), ("disgust", 0)]) := by
  have hraw : (emotionsRaw v).map Prod.snd
      = [v.pos, v.neg * (8/10), v.neg * (6/10), v.neg * (4/10),
         |v.compound| * (3/10), v.neg * (7/10)] := by
    simp only [emotionsRaw, List.map_cons, List.map_nil]
    rw [max_eq_right hp, max_eq_right (by positivity), max_eq_right (by positivity),
      max_eq_right (by positivity), max_eq_right (by positivity)]
  have htot : emotionsTotal v
      = v.pos + v.neg * (8/10) + v.neg * (6/10) + v.neg * (4/10)
        + |v.compound| * (3/10) + v.neg * (7/10) := by
    rw [emotionsTotal, hraw]
    simp [List.sum_cons]
    ring
  refine ⟨?_, hraw, ?_, ?_, ?_⟩
  · unfold analyzeEmotions
    split <;> simp [emotionsRaw]
  · intro kv hkv
    unfold analyzeEmotions at hkv
    split at hkv
    · rename_i ht
      rcases List.mem_map.mp hkv with ⟨kw, hkw, rfl⟩
      exact div_nonneg (emotionsRaw_nonneg v kw hkw) (le_of_lt ht)
    · exact emotionsRaw_nonneg v kv hkv
  · intro hsig
    have ht : 0 < emotionsTotal v := by
      rw [htot]
      have habs : 0 ≤ |v.compound| := abs_nonneg _
      rcases hsig with h | h | h
      · have : 0 < v.pos := lt_of_le_of_ne hp (Ne.symm h)
        nlinarith
      · have : 0 < v.neg := lt_of_le_of_ne hn (Ne.symm h)
        nlinarith
      · have : 0 < |v.compound| := abs_pos.mpr h
        nlinarith
    rw [analyzeEmotions, if_pos ht]
    have hmap2 : (List.map (fun kv => (kv.1, kv.2 / emotionsTotal v)) (emotionsRaw v)).map
          Prod.snd
        = List.map (fun x => x / emotionsTotal v) ((emotionsRaw v).map Prod.snd) := by
      simp [List.map_map]
    rw [hmap2, hraw]
    simp only [List.map_cons, List.map_nil, List.sum_cons, List.sum_nil, add_zero]
    have hsum : v.pos / emotionsTotal v + (v.neg * (8/10) / emotionsTotal v
        + (v.neg * (6/10) / emotionsTotal v + (v.neg * (4/10) / emotionsTotal v
        + (|v.compound| * (3/10) / emotionsTotal v + v.neg * (7/10) / emotionsTotal v))))
        = (v.pos + v.neg * (8/10) + v.neg * (6/10) + v.neg * (4/10)
            + |v.compound| * (3/10) + v.neg * (7/10)) / emotionsTotal v := by
      ring
    rw [hsum, ← htot]
    exact div_self (ne_of_gt ht)
  · rintro ⟨h1, h2, h3⟩
    have ht : emotionsTotal v = 0 := by
      rw [htot, h1, h2, h3]
      simp
    rw [analyzeEmotions, if_neg (by rw [ht]; exact lt_irrefl 0)]
    simp [emotionsRaw, h1, h2, h3]

/-- Witness for C6 at a concrete VADER output with positive signals. -/
theorem analyze_emotions_spec_witness :
    ((analyzeEmotions ⟨1/4, 1/4, 1/2, 1/5⟩).map Prod.fst
        = ["joy", "anger", "sadness", "fear", "surprise", "disgust"])
    ∧ ((emotionsRaw ⟨1/4, 1/4, 1/2, 1/5⟩).map Prod.snd
        = [(1:ℚ)/2, (1/4 : ℚ) * (8/10), (1/4 : ℚ) * (6/10), (1/4 : ℚ) * (4/10),
           |(1/5 : ℚ)| * (3/10), (1/4 : ℚ) * (7/10)])
    ∧ (∀ kv ∈ analyzeEmotions ⟨1/4, 1/4, 1/2, 1/5⟩, 0 ≤ kv.2)
    ∧ (((1:ℚ)/2 ≠ 0 ∨ (1/4 : ℚ) ≠ 0 ∨ (1/5 : ℚ) ≠ 0) →
        ((analyzeEmotions ⟨1/4, 1/4, 1/2, 1/5⟩).map Prod.snd).sum = 1)
    ∧ (((1:ℚ)/2 = 0 ∧ (1/4 : ℚ) = 0 ∧ (1/5 : ℚ) = 0) →
        analyzeEmotions ⟨1/4, 1/4, 1/2, 1/5⟩
          = [("joy", 0), ("anger", 0), ("sadness", 0), ("fear", 0),
             ("surprise", 0), ("disgust", 0)]) :=
  analyze_emotions_spec ⟨1/4, 1/4, 1/2, 1/5⟩ (by norm_num) (by norm_num)

/-! ## Claim C7 — theme ranking: truncation, descending sort, stable ties -/

/-- Stability of the descending sort: for every score value, the sorted list
restricted to that score is the pre-sort (declaration-order) list restricted
to it. -/
theorem insertionSort_filter_stable (l : List (String × Nat)) (v : Nat) :
    (List.insertionSort themeGE l).filter (fun p => p.2 == v)
      = l.filter (fun p => p.2 == v) := by
  have hmem : ∀ a ∈ l.filter (fun p : String × Nat => p.2 == v), (a.2 == v) = true :=
    fun a ha => (List.mem_filter.mp ha).2
  have hpair : (l.filter (fun p : String × Nat => p.2 == v)).Pairwise themeGE := by
    apply List.pairwise_of_forall_mem_list
    intro a ha b hb
    have h1 : a.2 = v := by simpa using hmem a ha
    have h2 : b.2 = v := by simpa using (List.mem_filter.mp hb).2
    simp [themeGE, h1, h2]
  have hsub : (l.filter (fun p : String × Nat => p.2 == v)).Sublist
      (List.insertionSort themeGE l) :=
    List.sublist_insertionSort hpair (List.filter_sublist l)
  have hidem : (l.filter (fun p : String × Nat => p.2 == v)).filter
        (fun p : String × Nat => p.2 == v)
      = l.filter (fun p : String × Nat => p.2 == v) :=
    List.filter_eq_self.mpr hmem
  have hsub2 : (l.filter (fun p : String × Nat => p.2 == v)).Sublist
      ((List.insertionSort themeGE l).filter (fun p : String × Nat => p.2 == v)) := by
    rw [← hidem]
    exact List.Sublist.filter _ hsub
  have hperm : ((List.insertionSort themeGE l).filter (fun p : String × Nat => p.2 == v)).Perm
      (l.filter (fun p : String × Nat => p.2 == v)) :=
    (List.perm_insertionSort themeGE l).filter _
  exact (hsub2.eq_of_length hperm.length_eq.symm).symm

/-- When some theme scores positively and at least one theme is requested,
`extract_themes` stays on the keyword-taxonomy branch and returns a
non-empty list. -/
theorem extractThemes_primary (text : String) (m : Nat)
    (h : detectedThemesScored (lowerData text) ≠ []) (hm : 0 < m) :
    extractThemes text m = primaryThemes text m ∧ primaryThemes text m ≠ [] := by
  have hlen : (List.insertionSort themeGE (detectedThemesScored (lowerData text))).length
      = (detectedThemesScored (lowerData text)).length :=
    List.length_insertionSort _ _
  have hpos : 0 < (detectedThemesScored (lowerData text)).length :=
    List.length_pos.mpr h
  have hne : primaryThemes text m ≠ [] := by
    unfold primaryThemes
    intro hcontr
    rw [List.map_eq_nil_iff] at hcontr
    have := congrArg List.length hcontr
    rw [List.length_take, hlen] at this
    simp only [List.length_nil] at this
    omega
  refine ⟨?_, hne⟩
  unfold extractThemes
  rw [if_neg (by simpa [List.isEmpty_iff] using hne)]

/-- Amended C7: when at least one theme scores positively, `extract_themes`
returns the keyword-taxonomy ranking: at most `max_themes` names, sorted by
descending score, ties kept in taxonomy declaration order (stable sort). The
fallback branch, reached only when no theme scores, ignores `max_themes` and
truncates to 3 instead (see the counterexample). -/
theorem extract_themes_sorted_spec (text : String) (m : Nat)
    (h : detectedThemesScored (lowerData text) ≠ []) (hm : 0 < m) :
    extractThemes text m = primaryThemes text m
    ∧ (extractThemes text m).length ≤ m
    ∧ List.Sorted themeGE
        (List.insertionSort themeGE (detectedThemesScored (lowerData text)))
    ∧ (∀ v : Nat,
        (List.insertionSort themeGE (detectedThemesScored (lowerData text))).filter
            (fun p => p.2 == v)
          = (detectedThemesScored (lowerData text)).filter (fun p => p.2 == v)) := by
  obtain ⟨he, _⟩ := extractThemes_primary text m h hm
  refine ⟨he, ?_, List.sorted_insertionSort themeGE _,
    fun v => insertionSort_filter_stable _ v⟩
  rw [he]
  unfold primaryThemes
  rw [List.length_map, List.length_take]
  exact min_le_left _ _

/-- Witness for C7 at the text "i" with `max_themes = 1`. -/
theorem extract_themes_sorted_spec_witness :
    extractThemes "i" 1 = primaryThemes "i" 1
    ∧ (extractThemes "i" 1).length ≤ 1
    ∧ List.Sorted themeGE
        (List.insertionSort themeGE (detectedThemesScored (lowerData "i")))
    ∧ (∀ v : Nat,
        (List.insertionSort themeGE (detectedThemesScored (lowerData "i"))).filter
            (fun p => p.2 == v)
          = (detectedThemesScored (lowerData "i")).filter (fun p => p.2 == v)) :=
  extract_themes_sorted_spec "i" 1 (by decide) (by decide)

/-- Counterexample to C7 as stated: the text "hate" matches no theme keyword,
so the content-heuristic fallback runs and returns 2 themes even though
`max_themes = 1` — the "at most `max_themes`" bound fails on the fallback
branch. -/
theorem extract_themes_exceeds_max :
    extractThemes "hate" 1 = ["emotional", "criticism"]
    ∧ ¬ ((extractThemes "hate" 1).length ≤ 1) := by
  decide

/-! ## Claim C10 — any text containing the letter i yields a theme -/

theorem pyContains_singleton {c : Char} {s : List Char} (h : c ∈ s) :
    pyContains [c] s = true := by
  induction s with
  | nil => cases h
  | cons d s ih =>
    rcases List.mem_cons.mp h with rfl | h2
    · simp [pyContains, List.isPrefixOf]
    · simp [pyContains, ih h2]

theorem one_le_pyCountAux_singleton {c : Char} :
    ∀ (fuel : Nat) (s : List Char), s.length ≤ fuel → c ∈ s →
      1 ≤ pyCountAux [c] fuel s
  | 0, s, hf, h => by
    have hnil : s = [] := List.length_eq_zero.mp (Nat.le_zero.mp hf)
    subst hnil
    cases h
  | fuel + 1, [], _, h => by cases h
  | fuel + 1, d :: s, hf, h => by
    by_cases hdc : d = c
    · subst hdc
      have hpre : List.isPrefixOf [d] (d :: s) = true := by simp [List.isPrefixOf]
      simp [pyCountAux, hpre]
    · have hmem : c ∈ s := by
        rcases List.mem_cons.mp h with rfl | h2
        · exact absurd rfl hdc
        · exact h2
      have hpre : List.isPrefixOf [c] (d :: s) = false := by
        simp [List.isPrefixOf, hdc]
        exact fun hcd => absurd hcd.symm hdc
      have hlen : s.length ≤ fuel := by
        simpa using Nat.succ_le_succ_iff.mp (by simpa using hf)
      simpa [pyCountAux, hpre] using one_le_pyCountAux_singleton fuel s hlen hmem

theorem one_le_pyCount_singleton {c : Char} {s : List Char} (h : c ∈ s) :
    1 ≤ pyCount [c] s :=
  one_le_pyCountAux_singleton s.length s le_rfl h

/-- The keyword-score fold never decreases its accumulator. -/
theorem themeScore_foldl_mono (tl : List Char) :
    ∀ (kws : List String) (a : Nat),
      a ≤ kws.foldl
        (fun acc kw => if pyContains kw.data tl then acc + pyCount kw.data tl else acc) a
  | [], _ => le_rfl
  | kw :: kws, a => by
    by_cases hc : pyContains kw.data tl
    · calc a ≤ a + pyCount kw.data tl := Nat.le_add_right _ _
        _ ≤ _ := by
          simpa [List.foldl_cons, hc] using
            themeScore_foldl_mono tl kws (a + pyCount kw.data tl)
    · simpa [List.foldl_cons, hc] using themeScore_foldl_mono tl kws a

/-- C10: the `personal_story` keyword list contains the single character "i",
keywords are matched by raw substring containment, so every text whose
lower-cased form contains an i scores at least one theme: `extract_themes`
(at its default `max_themes = 5`) stays on the keyword branch — the
content-heuristic fallback is never reached — and returns a non-empty list. -/
theorem themes_nonempty_of_contains_i (text : String) (h : 'i' ∈ lowerData text) :
    extractThemes text 5 = primaryThemes text 5 ∧ extractThemes text 5 ≠ [] := by
  have h1 : pyContains "i".data (lowerData text) = true := pyContains_singleton h
  have h2 : 1 ≤ pyCount "i".data (lowerData text) := one_le_pyCount_singleton h
  have hsc : 1 ≤ themeScore (lowerData text)
      ["i", "me", "my", "myself", "personal", "experience", "story"] := by
    unfold themeScore
    rw [List.foldl_cons, h1]
    simp only [if_true]
    calc (1 : Nat) ≤ 0 + pyCount "i".data (lowerData text) := by omega
      _ ≤ _ := themeScore_foldl_mono (lowerData text) _ _
  have hdet : detectedThemesScored (lowerData text) ≠ [] := by
    have hmem : ("personal_story",
        themeScore (lowerData text)
          ["i", "me", "my", "myself", "personal", "experience", "story"])
        ∈ detectedThemesScored (lowerData text) := by
      apply List.mem_filterMap.mpr
      refine ⟨("personal_story",
        ["i", "me", "my", "myself", "personal", "experience", "story"]), ?_, ?_⟩
      · simp [themeKeywordTable]
      · simp only []
        rw [if_pos (by omega)]
    exact List.ne_nil_of_mem hmem
  obtain ⟨he, hne⟩ := extractThemes_primary text 5 hdet (by omega)
  exact ⟨he, he ▸ hne⟩

/-- Witness for C10 at the concrete text "i like it". -/
theorem themes_nonempty_of_contains_i_witness :
    extractThemes "i like it" 5 = primaryThemes "i like it" 5
    ∧ extractThemes "i like it" 5 ≠ [] :=
  themes_nonempty_of_contains_i "i like it" (by decide)

end C2HQ
